import Mathlib

/-!
# Verification of the HarvestInsights synthetic-data generator and dashboard glue

Shallow embedding of the repository's Python sources:

* `data.py` / `index.py` (`load_simulated_data`): a synthetic farm dataset
  generator.  It seeds numpy's process-global pseudo-random generator, draws
  seven base columns (vectorized, so column-major draw order), and derives a
  `Predicted_Yield_ton_per_acre` column from a closed-form linear formula,
  each column rounded to a fixed number of decimals.
* `app.py` (`filtered_data`): filtering of the dataset by crop-type membership
  and pest-infestation equality.
* `index.py` (`load_nass_data`): a per-year HTTP fetch loop that skips failed
  years and coerces the textual `Value` field to a numeric, with malformed
  values becoming a missing marker.

Numeric columns are modelled as exact rationals (`ℚ`); `ndarray.round(d)` is
modelled by `roundTo d` (round the scaled value to the nearest integer; the
spec leaves the tie-breaking convention to the host primitive, so a fixed
convention is used here).  The numpy global generator is modelled as a stream
of unit-interval draws together with a position counter: each scalar draw
consumes one stream element, and a vectorized call of size `n` consumes the
next `n` elements, exactly the draw-order contract the spec pins down.
-/

/-- Crop types offered to `np.random.choice(['Wheat','Maize','Rice','Soybean'], n)`. -/
inductive CropType where
  | Wheat
  | Maize
  | Rice
  | Soybean
deriving DecidableEq, Repr

/-- Pest-infestation flag drawn by `np.random.choice(['Yes','No'], n, p=[0.3,0.7])`. -/
inductive Pest where
  | Yes
  | No
deriving DecidableEq, Repr

/-- The string stored in the `Pest_Infestation` column of the dataframe. -/
def pestString : Pest → String
  | Pest.Yes => "Yes"
  | Pest.No => "No"

/-- One row of the generated dataframe (`FarmRecord` in the spec).  Field names
follow the dataframe columns `Farm_ID`, `Crop_Type`, `Soil_Moisture_%`,
`Rainfall_mm`, `Avg_Temperature_C`, `Fertilizer_Used_kg_per_acre`,
`Pest_Infestation`, `Historical_Yield_ton_per_acre`,
`Predicted_Yield_ton_per_acre`. -/
structure FarmRecord where
  farmId : ℕ
  cropType : CropType
  soilMoisture : ℚ
  rainfall : ℚ
  avgTemperature : ℚ
  fertilizerUsed : ℚ
  pestInfestation : Pest
  historicalYield : ℚ
  predictedYield : ℚ
deriving DecidableEq, Repr

instance : Inhabited FarmRecord :=
  ⟨⟨0, CropType.Wheat, 0, 0, 0, 0, Pest.No, 0, 0⟩⟩

/-- Model of numpy's process-global generator state: an infinite stream of
unit-interval pseudo-random draws together with the position of the next
unconsumed draw.  The concrete MT19937 bit-stream is not part of the
repository; per the spec the portable contract is the draw order and the
per-field distribution, not the literal bits, so the stream is kept as data. -/
structure RNG where
  stream : ℕ → ℚ
  pos : ℕ

/-- Consume one unit draw from the global generator. -/
def draw (g : RNG) : ℚ × RNG :=
  (g.stream g.pos, ⟨g.stream, g.pos + 1⟩)

/-- Consume `n` unit draws, in order — the model of one vectorized
`np.random.*(..., size=n)` call's consumption of the underlying stream. -/
def drawN : ℕ → RNG → List ℚ × RNG
  | 0, g => ([], g)
  | n + 1, g =>
    let p := draw g
    let q := drawN n p.2
    (p.1 :: q.1, q.2)

/-- `np.random.uniform(a, b)` maps a unit draw `u` to `a + (b - a) * u`. -/
def uniformOf (a b u : ℚ) : ℚ := a + (b - a) * u

/-- `ndarray.round(d)`: round to `d` decimal places.  The spec allows either
half-even or half-away tie-breaking (whichever the host primitive uses); the
model uses Mathlib's `round` on the scaled value. -/
def roundTo (d : ℕ) (x : ℚ) : ℚ := (round (x * 10 ^ d) : ℤ) / 10 ^ d

/-- `np.random.choice(['Wheat','Maize','Rice','Soybean'], n)`: an unweighted
categorical draw, one of four equally likely options selected by which
quarter of the unit interval the draw falls in. -/
def cropOfUnit (u : ℚ) : CropType :=
  if u < 1 / 4 then CropType.Wheat
  else if u < 2 / 4 then CropType.Maize
  else if u < 3 / 4 then CropType.Rice
  else CropType.Soybean

/-- `np.random.choice(['Yes','No'], n, p=[0.3,0.7])`: a weighted categorical
draw, `Yes` iff the unit draw falls below the 0.3 cumulative weight. -/
def pestOfUnit (u : ℚ) : Pest :=
  if u < 3 / 10 then Pest.Yes else Pest.No

/-- The per-row derived-field formula of `data.py` / `index.py`, before the
final `.round(2)`:
`Historical_Yield + (Soil_Moisture - 25)*0.02 + (Rainfall - 150)*0.005
 + (30 - |Avg_Temperature - 25|)*0.05 - np.where(Pest == 'Yes', 0.5, 0)`. -/
def predictedYieldRaw (hist soil rain temp : ℚ) (pest : Pest) : ℚ :=
  hist + (soil - 25) * (2 / 100) + (rain - 150) * (5 / 1000) +
    (30 - |temp - 25|) * (5 / 100) -
    (if pest = Pest.Yes then 5 / 10 else 0)

/-- Build row `i` (0-based) of the dataframe from the seven unit draws feeding
its base fields, applying the per-column rounding and the derived-field
formula of the source. -/
def mkFarmRecord (i : ℕ) (uc us ur ut uf up uh : ℚ) : FarmRecord :=
  let soil := roundTo 2 (uniformOf 10 40 us)
  let rain := roundTo 1 (uniformOf 50 300 ur)
  let temp := roundTo 1 (uniformOf 15 35 ut)
  let fert := roundTo 1 (uniformOf 50 250 uf)
  let hist := roundTo 2 (uniformOf (3 / 2) 5 uh)
  let pest := pestOfUnit up
  { farmId := i + 1
    cropType := cropOfUnit uc
    soilMoisture := soil
    rainfall := rain
    avgTemperature := temp
    fertilizerUsed := fert
    pestInfestation := pest
    historicalYield := hist
    predictedYield := roundTo 2 (predictedYieldRaw hist soil rain temp pest) }

/-- The dataframe construction of `data.py` / `index.py`, as a function of the
record count `n` and the (already seeded) global generator state.  Each
vectorized `np.random.*` call draws a full column of `n` values before the
next column is drawn, in the source's order: `Crop_Type`, `Soil_Moisture_%`,
`Rainfall_mm`, `Avg_Temperature_C`, `Fertilizer_Used_kg_per_acre`,
`Pest_Infestation`, `Historical_Yield_ton_per_acre`; `Farm_ID` is
`np.arange(1, n+1)`. -/
def load_simulated_data (n : ℕ) (g0 : RNG) : List FarmRecord :=
  let cropC := drawN n g0
  let soilC := drawN n cropC.2
  let rainC := drawN n soilC.2
  let tempC := drawN n rainC.2
  let fertC := drawN n tempC.2
  let pestC := drawN n fertC.2
  let histC := drawN n pestC.2
  (List.range n).map fun i =>
    mkFarmRecord i (cropC.1.getD i 0) (soilC.1.getD i 0) (rainC.1.getD i 0)
      (tempC.1.getD i 0) (fertC.1.getD i 0) (pestC.1.getD i 0) (histC.1.getD i 0)

/-- Modelled from the spec: `np.random.seed(seed)` installs a fresh,
seed-determined global generator state with no dependence on the prior state.
The MT19937 bit-stream itself is outside the repository and, per the spec,
only the draw order and per-field distribution are contractual, so the unit
stream is modelled as a fixed deterministic function of the seed (a simple
multiplicative mix into `[0, 1)` with denominator `2^32`). -/
def npSeed (seed : ℕ) : RNG :=
  ⟨fun k => (((seed + 1) * 2654435761 + k * 40503) % 4294967296 : ℕ) / (4294967296 : ℚ), 0⟩

/-- `load_simulated_data` of `index.py` as it acts on the process-global
generator: `np.random.seed(seed)` overwrites whatever global state `_g0` was
left by earlier calls, then the dataframe is built from the fresh state. -/
def load_simulated_data_run (n seed : ℕ) (_g0 : RNG) : List FarmRecord :=
  load_simulated_data n (npSeed seed)

/-- The field-bound package satisfied by every row of the generated dataset. -/
def FieldBounds (r : FarmRecord) : Prop :=
  (10 ≤ r.soilMoisture ∧ r.soilMoisture ≤ 40) ∧
  (50 ≤ r.rainfall ∧ r.rainfall ≤ 300) ∧
  (15 ≤ r.avgTemperature ∧ r.avgTemperature ≤ 35) ∧
  (50 ≤ r.fertilizerUsed ∧ r.fertilizerUsed ≤ 250) ∧
  (3 / 2 ≤ r.historicalYield ∧ r.historicalYield ≤ 5) ∧
  (r.cropType = CropType.Wheat ∨ r.cropType = CropType.Maize ∨
    r.cropType = CropType.Rice ∨ r.cropType = CropType.Soybean) ∧
  (r.pestInfestation = Pest.Yes ∨ r.pestInfestation = Pest.No)

/-- A concrete stream for instantiating the theorems: every unit draw is 1/2. -/
def halfRNG : RNG := ⟨fun _ => 1 / 2, 0⟩

/-- The single row generated from `halfRNG` with `n = 1`. -/
def sampleRecord : FarmRecord :=
  mkFarmRecord 0 (1 / 2) (1 / 2) (1 / 2) (1 / 2) (1 / 2) (1 / 2) (1 / 2)


/-- The sidebar filter of `app.py`: keep the rows whose `Crop_Type` is in the
multiselect choice (`data[data["Crop_Type"].isin(selected_crops)]`), then, if
the pest selectbox is not `"All"`, keep the rows whose `Pest_Infestation`
equals the selected string.  A new list is produced; the input is untouched. -/
def filtered_data (data : List FarmRecord) (selected_crops : List CropType)
    (selected_pest : String) : List FarmRecord :=
  let fd := data.filter fun r => decide (r.cropType ∈ selected_crops)
  if selected_pest ≠ "All" then
    fd.filter fun r => decide (pestString r.pestInfestation = selected_pest)
  else fd

/-- One element of a NASS response's `data` array, reduced to the fields the
dashboard later coerces: the raw textual `Value` cell and the `year`. -/
structure NassRow where
  value : String
  year : ℕ
deriving DecidableEq, Repr

/-- `df["Value"].str.replace(",", "")`: drop every comma from the cell. -/
def stripCommas (s : String) : String :=
  (s.toList.filter fun c => c ≠ ',').asString

/-- Parse a nonempty run of ASCII digits as a natural number; `none` on an
empty list or any non-digit. -/
def parseDigits (cs : List Char) : Option ℕ :=
  match cs with
  | [] => none
  | _ =>
    cs.foldl
      (fun acc c =>
        match acc with
        | none => none
        | some n => if c.isDigit then some (n * 10 + (c.toNat - 48)) else none)
      (some 0)

/-- Simplified model of `pd.to_numeric(cell, errors='coerce')` on one cell: an
optional leading minus sign, a digit run, optionally followed by a dot and a
fraction digit run.  Any other shape coerces to the missing marker `none`
(pandas `NaN`) instead of raising. -/
def to_numeric_cell (s : String) : Option ℚ :=
  let p : ℚ × List Char :=
    match s.toList with
    | '-' :: t => (-1, t)
    | t => (1, t)
  match p.2.span Char.isDigit with
  | (intPart, []) => (parseDigits intPart).map fun n => p.1 * (n : ℚ)
  | (intPart, '.' :: fracPart) =>
    match parseDigits intPart, parseDigits fracPart with
    | some n, some f => some (p.1 * ((n : ℚ) + (f : ℚ) / 10 ^ fracPart.length))
    | _, _ => none
  | _ => none

/-- The `Value`-column coercion of `load_nass_data`:
`pd.to_numeric(df["Value"].str.replace(",", ""), errors='coerce')`. -/
def to_numeric_coerce (s : String) : Option ℚ :=
  to_numeric_cell (stripCommas s)

/-- The coerced `Value` column over a list of fetched rows. -/
def nassValues (rows : List NassRow) : List (Option ℚ) :=
  rows.map fun r => to_numeric_coerce r.value

/-- The per-year fetch loop of `load_nass_data` in `index.py`.  `http` models
the HTTP layer: for each requested year it returns either the parsed `data`
array of the JSON body (`Except.ok`) or a request failure — a network error or
the non-2xx status raised by `resp.raise_for_status()` (`Except.error`).  The
loop walks `range(year_range[0], year_range[1] + 1)`; each iteration issues
exactly one GET (logged in the first component), appends the year's rows on
success (`rows.extend(...)`) and just continues on failure
(`except ...: continue`). -/
def load_nass_data (y1 y2 : ℕ) (http : ℕ → Except Unit (List NassRow)) :
    List ℕ × List NassRow :=
  (List.range' y1 (y2 + 1 - y1)).foldl
    (fun acc yr =>
      match http yr with
      | Except.ok d => (acc.1 ++ [yr], acc.2 ++ d)
      | Except.error _ => (acc.1 ++ [yr], acc.2))
    ([], [])

-- ---------------------------------------------------------------------------
-- Basic facts about the draw stream
-- ---------------------------------------------------------------------------

theorem drawN_eq (n : ℕ) (g : RNG) :
    drawN n g = ((List.range n).map fun i => g.stream (g.pos + i), ⟨g.stream, g.pos + n⟩) := by
  induction n generalizing g with
  | zero => simp [drawN]
  | succ m ih =>
    simp only [drawN, draw, ih, Prod.mk.injEq]
    constructor
    · rw [List.range_succ_eq_map]
      simp only [List.map_cons, List.map_map, Nat.add_zero, List.cons.injEq, true_and]
      refine List.map_congr_left fun i _ => ?_
      simp [Function.comp, Nat.add_assoc, Nat.add_comm 1 i]
    · simp [Nat.add_assoc, Nat.add_comm 1 m]

theorem getD_map_range {α : Type} (f : ℕ → α) (d : α) {n i : ℕ} (h : i < n) :
    ((List.range n).map f).getD i d = f i := by
  rw [List.getD_eq_getElem?_getD]
  rw [List.getElem?_map, List.getElem?_range h]
  rfl

/-- `load_simulated_data`, rewritten to show which stream position feeds which
field of which row: field number `c` (0-based, in draw order) of row `i`
consumes the draw at position `pos + c*n + i` — the column-major layout. -/
theorem load_simulated_data_eq (n : ℕ) (g : RNG) :
    load_simulated_data n g = (List.range n).map fun i =>
      mkFarmRecord i (g.stream (g.pos + i)) (g.stream (g.pos + n + i))
        (g.stream (g.pos + 2 * n + i)) (g.stream (g.pos + 3 * n + i))
        (g.stream (g.pos + 4 * n + i)) (g.stream (g.pos + 5 * n + i))
        (g.stream (g.pos + 6 * n + i)) := by
  unfold load_simulated_data
  simp only [drawN_eq]
  refine List.map_congr_left fun i hi => ?_
  have h : i < n := List.mem_range.mp hi
  rw [getD_map_range _ _ h, getD_map_range _ _ h, getD_map_range _ _ h,
    getD_map_range _ _ h, getD_map_range _ _ h, getD_map_range _ _ h,
    getD_map_range _ _ h]
  ring_nf

-- ---------------------------------------------------------------------------
-- Rounding and uniform-draw bounds
-- ---------------------------------------------------------------------------

theorem round_mono_rat {x y : ℚ} (h : x ≤ y) : round x ≤ round y := by
  rw [round_eq, round_eq]
  exact Int.floor_mono (by linarith)

/-- Rounding to `d` decimals keeps a value between bounds that are themselves
exact multiples of `10 ^ (-d)`. -/
theorem roundTo_bound (d : ℕ) (m M : ℤ) {x : ℚ}
    (h1 : (m : ℚ) ≤ x * 10 ^ d) (h2 : x * 10 ^ d ≤ (M : ℚ)) :
    (m : ℚ) / 10 ^ d ≤ roundTo d x ∧ roundTo d x ≤ (M : ℚ) / 10 ^ d := by
  have hm : m ≤ round (x * 10 ^ d) := by
    have hcast := round_mono_rat h1
    rwa [round_intCast] at hcast
  have hM : round (x * 10 ^ d) ≤ M := by
    have hcast := round_mono_rat h2
    rwa [round_intCast] at hcast
  have hpos : (0 : ℚ) < 10 ^ d := by positivity
  unfold roundTo
  exact ⟨(div_le_div_iff_of_pos_right hpos).mpr (by exact_mod_cast hm),
    (div_le_div_iff_of_pos_right hpos).mpr (by exact_mod_cast hM)⟩

theorem uniformOf_mem {a b u : ℚ} (hab : a ≤ b) (h0 : 0 ≤ u) (h1 : u < 1) :
    a ≤ uniformOf a b u ∧ uniformOf a b u ≤ b := by
  unfold uniformOf
  constructor <;> nlinarith

-- ---------------------------------------------------------------------------
-- Projections of a generated row
-- ---------------------------------------------------------------------------

@[simp] theorem mkFarmRecord_farmId (i : ℕ) (uc us ur ut uf up uh : ℚ) :
    (mkFarmRecord i uc us ur ut uf up uh).farmId = i + 1 := rfl

@[simp] theorem mkFarmRecord_cropType (i : ℕ) (uc us ur ut uf up uh : ℚ) :
    (mkFarmRecord i uc us ur ut uf up uh).cropType = cropOfUnit uc := rfl

@[simp] theorem mkFarmRecord_soilMoisture (i : ℕ) (uc us ur ut uf up uh : ℚ) :
    (mkFarmRecord i uc us ur ut uf up uh).soilMoisture = roundTo 2 (uniformOf 10 40 us) := rfl

@[simp] theorem mkFarmRecord_rainfall (i : ℕ) (uc us ur ut uf up uh : ℚ) :
    (mkFarmRecord i uc us ur ut uf up uh).rainfall = roundTo 1 (uniformOf 50 300 ur) := rfl

@[simp] theorem mkFarmRecord_avgTemperature (i : ℕ) (uc us ur ut uf up uh : ℚ) :
    (mkFarmRecord i uc us ur ut uf up uh).avgTemperature = roundTo 1 (uniformOf 15 35 ut) := rfl

@[simp] theorem mkFarmRecord_fertilizerUsed (i : ℕ) (uc us ur ut uf up uh : ℚ) :
    (mkFarmRecord i uc us ur ut uf up uh).fertilizerUsed = roundTo 1 (uniformOf 50 250 uf) := rfl

@[simp] theorem mkFarmRecord_pestInfestation (i : ℕ) (uc us ur ut uf up uh : ℚ) :
    (mkFarmRecord i uc us ur ut uf up uh).pestInfestation = pestOfUnit up := rfl

@[simp] theorem mkFarmRecord_historicalYield (i : ℕ) (uc us ur ut uf up uh : ℚ) :
    (mkFarmRecord i uc us ur ut uf up uh).historicalYield = roundTo 2 (uniformOf (3 / 2) 5 uh) := rfl

theorem mkFarmRecord_predictedYield (i : ℕ) (uc us ur ut uf up uh : ℚ) :
    (mkFarmRecord i uc us ur ut uf up uh).predictedYield =
      roundTo 2 (predictedYieldRaw (mkFarmRecord i uc us ur ut uf up uh).historicalYield
        (mkFarmRecord i uc us ur ut uf up uh).soilMoisture
        (mkFarmRecord i uc us ur ut uf up uh).rainfall
        (mkFarmRecord i uc us ur ut uf up uh).avgTemperature
        (mkFarmRecord i uc us ur ut uf up uh).pestInfestation) := rfl

-- ---------------------------------------------------------------------------
-- Field bounds of every generated row
-- ---------------------------------------------------------------------------


theorem roundTo_mono {d : ℕ} {x y : ℚ} (h : x ≤ y) : roundTo d x ≤ roundTo d y := by
  unfold roundTo
  have hpos : (0 : ℚ) < 10 ^ d := by positivity
  have hr := round_mono_rat (mul_le_mul_of_nonneg_right h (le_of_lt hpos))
  exact (div_le_div_iff_of_pos_right hpos).mpr (by exact_mod_cast hr)

/-- Rounding keeps a value between bounds that rounding leaves fixed. -/
theorem roundTo_mem_Icc {d : ℕ} {a b x : ℚ} (ha : roundTo d a = a) (hb : roundTo d b = b)
    (h1 : a ≤ x) (h2 : x ≤ b) : a ≤ roundTo d x ∧ roundTo d x ≤ b :=
  ⟨ha ▸ roundTo_mono h1, hb ▸ roundTo_mono h2⟩

/-- A value that is an exact multiple of `10 ^ (-d)` is a fixed point of
rounding to `d` decimals. -/
theorem roundTo_fixed {d : ℕ} {x : ℚ} (m : ℤ) (hm : x * 10 ^ d = (m : ℚ)) :
    roundTo d x = x := by
  unfold roundTo
  rw [hm, round_intCast, ← hm, mul_div_cancel_right₀]
  positivity

theorem mkFarmRecord_fieldBounds (i : ℕ) (uc us ur ut uf up uh : ℚ)
    (hus0 : 0 ≤ us) (hus1 : us < 1) (hur0 : 0 ≤ ur) (hur1 : ur < 1)
    (hut0 : 0 ≤ ut) (hut1 : ut < 1) (huf0 : 0 ≤ uf) (huf1 : uf < 1)
    (huh0 : 0 ≤ uh) (huh1 : uh < 1) :
    FieldBounds (mkFarmRecord i uc us ur ut uf up uh) := by
  obtain ⟨hs1, hs2⟩ := uniformOf_mem (by norm_num : (10 : ℚ) ≤ 40) hus0 hus1
  obtain ⟨hr1, hr2⟩ := uniformOf_mem (by norm_num : (50 : ℚ) ≤ 300) hur0 hur1
  obtain ⟨ht1, ht2⟩ := uniformOf_mem (by norm_num : (15 : ℚ) ≤ 35) hut0 hut1
  obtain ⟨hf1, hf2⟩ := uniformOf_mem (by norm_num : (50 : ℚ) ≤ 250) huf0 huf1
  obtain ⟨hh1, hh2⟩ := uniformOf_mem (by norm_num : (3 / 2 : ℚ) ≤ 5) huh0 huh1
  refine ⟨?_, ?_, ?_, ?_, ?_, ?_, ?_⟩
  · exact roundTo_mem_Icc (roundTo_fixed 1000 (by norm_num)) (roundTo_fixed 4000 (by norm_num)) hs1 hs2
  · exact roundTo_mem_Icc (roundTo_fixed 500 (by norm_num)) (roundTo_fixed 3000 (by norm_num)) hr1 hr2
  · exact roundTo_mem_Icc (roundTo_fixed 150 (by norm_num)) (roundTo_fixed 350 (by norm_num)) ht1 ht2
  · exact roundTo_mem_Icc (roundTo_fixed 500 (by norm_num)) (roundTo_fixed 2500 (by norm_num)) hf1 hf2
  · exact roundTo_mem_Icc (roundTo_fixed 150 (by norm_num)) (roundTo_fixed 500 (by norm_num)) hh1 hh2
  · cases h : cropOfUnit uc <;> simp [h]
  · cases h : pestOfUnit up <;> simp [h]

/-- Every member of the generated dataset satisfies the field-bound package,
provided the unit stream stays in `[0, 1)` (numpy's contract for
`random_sample`). -/
theorem mem_load_fieldBounds {n : ℕ} {g : RNG}
    (hg : ∀ k, 0 ≤ g.stream k ∧ g.stream k < 1)
    {r : FarmRecord} (hr : r ∈ load_simulated_data n g) : FieldBounds r := by
  rw [load_simulated_data_eq] at hr
  obtain ⟨i, -, rfl⟩ := List.mem_map.mp hr
  exact mkFarmRecord_fieldBounds _ _ _ _ _ _ _ _
    (hg _).1 (hg _).2 (hg _).1 (hg _).2 (hg _).1 (hg _).2
    (hg _).1 (hg _).2 (hg _).1 (hg _).2

-- ---------------------------------------------------------------------------
-- A concrete generator state and row, used to instantiate the theorems
-- ---------------------------------------------------------------------------


theorem halfRNG_unit (k : ℕ) : 0 ≤ halfRNG.stream k ∧ halfRNG.stream k < 1 := by
  constructor <;> norm_num [halfRNG]

theorem load_half_one : load_simulated_data 1 halfRNG = [sampleRecord] := by
  rw [load_simulated_data_eq]
  rfl

theorem sampleRecord_mem : sampleRecord ∈ load_simulated_data 1 halfRNG := by
  rw [load_half_one]
  exact List.mem_singleton.mpr rfl

-- ---------------------------------------------------------------------------
-- Range of the raw (unrounded) derived-field formula
-- ---------------------------------------------------------------------------

theorem predictedYieldRaw_mem {hist soil rain temp : ℚ} (pest : Pest)
    (hh1 : 3 / 2 ≤ hist) (hh2 : hist ≤ 5) (hs1 : 10 ≤ soil) (hs2 : soil ≤ 40)
    (hr1 : 50 ≤ rain) (hr2 : rain ≤ 300) (ht1 : 15 ≤ temp) (ht2 : temp ≤ 35) :
    6 / 5 ≤ predictedYieldRaw hist soil rain temp pest ∧
      predictedYieldRaw hist soil rain temp pest ≤ 151 / 20 := by
  unfold predictedYieldRaw
  rcases abs_cases (temp - 25) with ⟨he, hsign⟩ | ⟨he, hsign⟩ <;> rw [he] <;>
    cases pest <;> simp only [reduceCtorEq, if_true, if_false, if_pos, if_neg,
      not_false_iff] <;> constructor <;> linarith

-- ===========================================================================
-- Claims
-- ===========================================================================

/-- C1: every generated record's `Predicted_Yield_ton_per_acre` equals the
linear formula `HistoricalYield + (SoilMoisture-25)*0.02 + (Rainfall-150)*0.005
+ (30-|AvgTemperature-25|)*0.05 - (0.5 if PestInfestation = Yes else 0)`,
rounded to two decimals, applied to the other fields of the *same* row — a
pure per-row function with no dependency on any other row. -/
theorem C1_predictedYield_formula_pure (n : ℕ) (g : RNG) (r : FarmRecord)
    (hr : r ∈ load_simulated_data n g) :
    r.predictedYield = roundTo 2 (predictedYieldRaw r.historicalYield r.soilMoisture
      r.rainfall r.avgTemperature r.pestInfestation) := by
  rw [load_simulated_data_eq] at hr
  obtain ⟨i, -, rfl⟩ := List.mem_map.mp hr
  rfl

/-- Witness for C1 at the concrete dataset `load_simulated_data 1 halfRNG`. -/
theorem C1_predictedYield_formula_pure_witness :
    sampleRecord ∈ load_simulated_data 1 halfRNG ∧
    sampleRecord.predictedYield = roundTo 2 (predictedYieldRaw sampleRecord.historicalYield
      sampleRecord.soilMoisture sampleRecord.rainfall sampleRecord.avgTemperature
      sampleRecord.pestInfestation) :=
  ⟨sampleRecord_mem, C1_predictedYield_formula_pure 1 halfRNG sampleRecord sampleRecord_mem⟩

/-- C2 counterexample: the claim's first expected value is false on the code.
At `HistoricalYield = 3`, `SoilMoisture = 25`, `Rainfall = 150`,
`AvgTemperature = 25`, `PestInfestation = No`, the temperature term is
`(30 - 0) * 0.05 = 1.5`, not `0`, so the derived value is `4.50`, not `3.00`
(and the claim's second case gives `4.20`, not `2.70`). -/
theorem C2_formula_examples_counterexample :
    roundTo 2 (predictedYieldRaw 3 25 150 25 Pest.No) ≠ 3 ∧
    roundTo 2 (predictedYieldRaw 3 35 150 25 Pest.Yes) ≠ 27 / 10 := by
  have h1 : predictedYieldRaw 3 25 150 25 Pest.No = 9 / 2 := by
    norm_num [predictedYieldRaw]
    all_goals decide
  have h2 : predictedYieldRaw 3 35 150 25 Pest.Yes = 21 / 5 := by
    norm_num [predictedYieldRaw]
  rw [h1, h2]
  constructor
  · rw [roundTo_fixed 450 (by norm_num)]; norm_num
  · rw [roundTo_fixed 420 (by norm_num)]; norm_num

/-- C2 (amended): for `HistoricalYield = 3.00`, `SoilMoisture = 25`,
`Rainfall = 150`, `AvgTemperature = 25`, `PestInfestation = No` the generator's
derived-field computation yields `PredictedYield = 4.50` (the moisture,
rainfall and pest terms are zero, the temperature term contributes `+1.50`);
and for `HistoricalYield = 3.00`, `SoilMoisture = 35`, `Rainfall = 150`,
`AvgTemperature = 25`, `PestInfestation = Yes` it yields `4.20`. -/
theorem C2_formula_examples :
    roundTo 2 (predictedYieldRaw 3 25 150 25 Pest.No) = 9 / 2 ∧
    roundTo 2 (predictedYieldRaw 3 35 150 25 Pest.Yes) = 21 / 5 := by
  have h1 : predictedYieldRaw 3 25 150 25 Pest.No = 9 / 2 := by
    norm_num [predictedYieldRaw]
    all_goals decide
  have h2 : predictedYieldRaw 3 35 150 25 Pest.Yes = 21 / 5 := by
    norm_num [predictedYieldRaw]
  rw [h1, h2, roundTo_fixed 450 (by norm_num), roundTo_fixed 420 (by norm_num)]
  exact ⟨rfl, rfl⟩

/-- C3: for every `n ≥ 1` and every generator state, the generator returns
exactly `n` records whose `Farm_ID` values are the integers `1..n`, in
ascending order with no gaps or repeats. -/
theorem C3_farmIds (n : ℕ) (g : RNG) (_h : 1 ≤ n) :
    (load_simulated_data n g).length = n ∧
    (load_simulated_data n g).map (fun r => r.farmId) = List.range' 1 n := by
  constructor
  · rw [load_simulated_data_eq]
    simp
  · rw [load_simulated_data_eq, List.map_map, List.range'_eq_map_range]
    refine List.map_congr_left fun i _ => ?_
    simp [Nat.add_comm]

/-- Witness for C3 at `n = 3` over the concrete stream `halfRNG`. -/
theorem C3_farmIds_witness :
    1 ≤ 3 ∧
    ((load_simulated_data 3 halfRNG).length = 3 ∧
      (load_simulated_data 3 halfRNG).map (fun r => r.farmId) = List.range' 1 3) :=
  ⟨by norm_num, C3_farmIds 3 halfRNG (by norm_num)⟩

/-- C4: the generator is deterministic — `load_simulated_data`, run after
`np.random.seed(seed)`, gives the same record sequence on every invocation
with the same `(n, seed)`, whatever global generator state earlier calls left
behind. -/
theorem C4_deterministic (n seed : ℕ) (g g' : RNG) :
    load_simulated_data_run n seed g = load_simulated_data_run n seed g' := rfl

/-- C6 counterexample: the code contains no `n < 1` validation at all.  Called
with `n = 0`, it raises no invalid-argument error and returns an (empty)
record sequence: every `np.random.*(..., size=0)` call yields an empty column
and the dataframe construction succeeds. -/
theorem C6_no_error_counterexample :
    load_simulated_data 0 (npSeed 42) = [] := rfl

/-- C6 (amended): called with `n = 0`, the generator signals no error and
produces the empty record sequence; the generation itself has no failure
mode (it is a total function of the record count and the generator state). -/
theorem C6_zero_gives_empty (g : RNG) : load_simulated_data 0 g = [] := rfl

/-- C5: every record of every generated dataset satisfies, after rounding,
`Soil_Moisture_% ∈ [10,40]`, `Rainfall_mm ∈ [50,300]`,
`Avg_Temperature_C ∈ [15,35]`, `Fertilizer_Used_kg_per_acre ∈ [50,250]`,
`Historical_Yield_ton_per_acre ∈ [1.5,5.0]`,
`Crop_Type ∈ {Wheat, Maize, Rice, Soybean}` and
`Pest_Infestation ∈ {Yes, No}`, provided the unit stream stays inside
`[0, 1)` (numpy's contract for its uniform sampler). -/
theorem C5_field_bounds (n : ℕ) (g : RNG)
    (hg : ∀ k, 0 ≤ g.stream k ∧ g.stream k < 1)
    (r : FarmRecord) (hr : r ∈ load_simulated_data n g) :
    (10 ≤ r.soilMoisture ∧ r.soilMoisture ≤ 40) ∧
    (50 ≤ r.rainfall ∧ r.rainfall ≤ 300) ∧
    (15 ≤ r.avgTemperature ∧ r.avgTemperature ≤ 35) ∧
    (50 ≤ r.fertilizerUsed ∧ r.fertilizerUsed ≤ 250) ∧
    (3 / 2 ≤ r.historicalYield ∧ r.historicalYield ≤ 5) ∧
    (r.cropType = CropType.Wheat ∨ r.cropType = CropType.Maize ∨
      r.cropType = CropType.Rice ∨ r.cropType = CropType.Soybean) ∧
    (r.pestInfestation = Pest.Yes ∨ r.pestInfestation = Pest.No) :=
  mem_load_fieldBounds hg hr

/-- Witness for C5 on the concrete one-row dataset from `halfRNG`. -/
theorem C5_field_bounds_witness :
    (∀ k, 0 ≤ halfRNG.stream k ∧ halfRNG.stream k < 1) ∧
    sampleRecord ∈ load_simulated_data 1 halfRNG ∧
    ((10 ≤ sampleRecord.soilMoisture ∧ sampleRecord.soilMoisture ≤ 40) ∧
    (50 ≤ sampleRecord.rainfall ∧ sampleRecord.rainfall ≤ 300) ∧
    (15 ≤ sampleRecord.avgTemperature ∧ sampleRecord.avgTemperature ≤ 35) ∧
    (50 ≤ sampleRecord.fertilizerUsed ∧ sampleRecord.fertilizerUsed ≤ 250) ∧
    (3 / 2 ≤ sampleRecord.historicalYield ∧ sampleRecord.historicalYield ≤ 5) ∧
    (sampleRecord.cropType = CropType.Wheat ∨ sampleRecord.cropType = CropType.Maize ∨
      sampleRecord.cropType = CropType.Rice ∨ sampleRecord.cropType = CropType.Soybean) ∧
    (sampleRecord.pestInfestation = Pest.Yes ∨ sampleRecord.pestInfestation = Pest.No)) :=
  ⟨halfRNG_unit, sampleRecord_mem,
    C5_field_bounds 1 halfRNG halfRNG_unit sampleRecord sampleRecord_mem⟩

/-- C7: the generator consumes the pseudo-random stream in column-major
order — with the stream position starting at `g.pos`, row `i`'s `Crop_Type`
comes from draw `g.pos + i`, its `Soil_Moisture_%` from draw `g.pos + n + i`,
`Rainfall_mm` from `g.pos + 2n + i`, `Avg_Temperature_C` from `g.pos + 3n + i`,
`Fertilizer_Used_kg_per_acre` from `g.pos + 4n + i`, `Pest_Infestation` from
`g.pos + 5n + i` and `Historical_Yield_ton_per_acre` from `g.pos + 6n + i`:
all `n` draws of one field precede every draw of the next field, in the order
CropType, SoilMoisture, Rainfall, AvgTemperature, FertilizerUsed,
PestInfestation, HistoricalYield. -/
theorem C7_column_major (n : ℕ) (g : RNG) :
    load_simulated_data n g = (List.range n).map fun i =>
      mkFarmRecord i (g.stream (g.pos + i)) (g.stream (g.pos + n + i))
        (g.stream (g.pos + 2 * n + i)) (g.stream (g.pos + 3 * n + i))
        (g.stream (g.pos + 4 * n + i)) (g.stream (g.pos + 5 * n + i))
        (g.stream (g.pos + 6 * n + i)) :=
  load_simulated_data_eq n g

/-- C10: for every generated record, the unrounded derived-yield value lies in
`[1.2, 7.55]` — in particular it is strictly positive — given the unit-stream
contract: the base fields are confined to their domains, the temperature term
contributes at least `+1.0`, and the moisture, rainfall and pest penalties
total at most `-1.3` against a minimum historical yield of `1.5`. -/
theorem C10_raw_yield_bounds (n : ℕ) (g : RNG)
    (hg : ∀ k, 0 ≤ g.stream k ∧ g.stream k < 1)
    (r : FarmRecord) (hr : r ∈ load_simulated_data n g) :
    6 / 5 ≤ predictedYieldRaw r.historicalYield r.soilMoisture r.rainfall
        r.avgTemperature r.pestInfestation ∧
    predictedYieldRaw r.historicalYield r.soilMoisture r.rainfall
        r.avgTemperature r.pestInfestation ≤ 151 / 20 ∧
    0 < predictedYieldRaw r.historicalYield r.soilMoisture r.rainfall
        r.avgTemperature r.pestInfestation := by
  obtain ⟨⟨hs1, hs2⟩, ⟨hr1, hr2⟩, ⟨ht1, ht2⟩, -, ⟨hh1, hh2⟩, -, -⟩ :=
    mem_load_fieldBounds hg hr
  obtain ⟨hlo, hhi⟩ := predictedYieldRaw_mem r.pestInfestation hh1 hh2 hs1 hs2 hr1 hr2 ht1 ht2
  exact ⟨hlo, hhi, lt_of_lt_of_le (by norm_num) hlo⟩

/-- Witness for C10 on the concrete one-row dataset from `halfRNG`. -/
theorem C10_raw_yield_bounds_witness :
    (∀ k, 0 ≤ halfRNG.stream k ∧ halfRNG.stream k < 1) ∧
    sampleRecord ∈ load_simulated_data 1 halfRNG ∧
    (6 / 5 ≤ predictedYieldRaw sampleRecord.historicalYield sampleRecord.soilMoisture
        sampleRecord.rainfall sampleRecord.avgTemperature sampleRecord.pestInfestation ∧
    predictedYieldRaw sampleRecord.historicalYield sampleRecord.soilMoisture
        sampleRecord.rainfall sampleRecord.avgTemperature sampleRecord.pestInfestation ≤ 151 / 20 ∧
    0 < predictedYieldRaw sampleRecord.historicalYield sampleRecord.soilMoisture
        sampleRecord.rainfall sampleRecord.avgTemperature sampleRecord.pestInfestation) :=
  ⟨halfRNG_unit, sampleRecord_mem,
    C10_raw_yield_bounds 1 halfRNG halfRNG_unit sampleRecord sampleRecord_mem⟩

-- ---------------------------------------------------------------------------
-- app.py: sidebar filtering
-- ---------------------------------------------------------------------------
/-- C8: the filtered view contains exactly the records whose `Crop_Type`
belongs to the selected crop set and, when the pest selection is not `"All"`,
whose `Pest_Infestation` equals the selected value; and it is a sublist of the
original dataset, which the (pure) filtering function leaves unchanged. -/
theorem C8_filter_spec (data : List FarmRecord) (selected_crops : List CropType)
    (selected_pest : String) :
    (∀ r : FarmRecord, r ∈ filtered_data data selected_crops selected_pest ↔
      (r ∈ data ∧ r.cropType ∈ selected_crops ∧
        (selected_pest = "All" ∨ pestString r.pestInfestation = selected_pest))) ∧
    List.Sublist (filtered_data data selected_crops selected_pest) data := by
  constructor
  · intro r
    unfold filtered_data
    by_cases h : selected_pest = "All"
    · simp [h, List.mem_filter]
    · simp only [h, ne_eq, not_false_iff, if_pos, List.mem_filter,
        decide_eq_true_eq, or_iff_right h]
      tauto
  · unfold filtered_data
    by_cases h : selected_pest = "All"
    · simp only [h, ne_eq, not_true, if_neg, ite_false, not_not]
      exact List.filter_sublist data
    · simp only [h, ne_eq, not_false_iff, if_pos]
      exact (List.filter_sublist _).trans (List.filter_sublist data)

-- ---------------------------------------------------------------------------
-- index.py: USDA NASS loader

theorem nassFold (http : ℕ → Except Unit (List NassRow)) (years : List ℕ)
    (acc : List ℕ × List NassRow) :
    years.foldl
      (fun acc yr =>
        match http yr with
        | Except.ok d => (acc.1 ++ [yr], acc.2 ++ d)
        | Except.error _ => (acc.1 ++ [yr], acc.2))
      acc =
    (acc.1 ++ years,
      acc.2 ++ (years.map fun yr =>
        match http yr with
        | Except.ok d => d
        | Except.error _ => []).flatten) := by
  induction years generalizing acc with
  | nil => simp
  | cons y ys ih =>
    rw [List.foldl_cons, ih]
    cases h : http y <;> simp [h]

/-- C9: for every year in the caller-supplied inclusive range, the loop issues
exactly one GET (the request log equals the duplicate-free list
`range(y1, y2+1)`); a failed request for a year contributes no rows for that
year while the remaining years are still requested and their rows kept; and a
malformed `Value` cell is coerced to the missing marker `none` rather than
raising, while well-formed cells have their commas stripped and are parsed. -/
theorem C9_nass_per_year (y1 y2 : ℕ) (http : ℕ → Except Unit (List NassRow)) :
    (load_nass_data y1 y2 http).1 = List.range' y1 (y2 + 1 - y1) ∧
    (List.range' y1 (y2 + 1 - y1)).Nodup ∧
    (load_nass_data y1 y2 http).2 =
      ((List.range' y1 (y2 + 1 - y1)).map fun yr =>
        match http yr with
        | Except.ok d => d
        | Except.error _ => []).flatten ∧
    nassValues [⟨"1,234", 2015⟩] = [some 1234] ∧
    nassValues [⟨"(D)", 2016⟩] = [none] := by
  refine ⟨?_, List.nodup_range' _ _, ?_, ?_, rfl⟩
  · unfold load_nass_data
    rw [nassFold]
    simp
  · unfold load_nass_data
    rw [nassFold]
    simp
  · show [some ((1 : ℚ) * ((1234 : ℕ) : ℚ))] = [some (1234 : ℚ)]
    norm_num
